import Mathlib

/-!
Verification of the type surface declared by the repository
(src/index.d.ts declaring modules imap/types and imap, and the
unnamed Gmail extension declaration file), together with
spec-modelled definitions for the behavioral components that the
specification describes but that have no implementation under src/
(the repository consists solely of TypeScript type declarations).

TypeScript types are structural, so the search-term grammar is
embedded as decidable predicates over a model of TypeScript runtime
values: a value inhabits a declared type exactly when the predicate
holds.
-/

/-- A model of the TypeScript runtime values that can appear in the
search-criteria positions of the declared API: strings, numbers,
Date objects (opaque, tagged by a natural number so distinct dates
exist), and arrays. -/
inductive TSVal where
| str : String → TSVal
| num : Int → TSVal
| dateV : Nat → TSVal
| arr : List TSVal → TSVal

/-- The string literals of the union type SearchTermNoParam
(src/index.d.ts lines 11-96), in source order. -/
def searchTermNoParamKeys : List String :=
  ["ALL", "!ALL", "ANSWERED", "!ANSWERED", "DELETED", "!DELETED",
   "DRAFT", "!DRAFT", "FLAGGED", "!FLAGGED", "NEW", "!NEW",
   "SEEN", "!SEEN", "RECENT", "!RECENT", "OLD", "!OLD",
   "UNANSWERED", "!UNANSWERED", "UNDELETED", "!UNDELETED",
   "UNDRAFT", "!UNDRAFT", "UNFLAGGED", "!UNFLAGGED",
   "UNSEEN", "!UNSEEN"]

/-- The keyword literals admitted in the first slot of
SearchTermStringParam (src/index.d.ts lines 98-147). -/
def searchTermStringParamKeys : List String :=
  ["BCC", "!BCC", "CC", "!CC", "FROM", "!FROM", "SUBJECT", "!SUBJECT",
   "TO", "!TO", "BODY", "!BODY", "TEXT", "!TEXT", "KEYWORD", "!KEYWORD"]

/-- The keyword literals admitted in the first slot of
SearchTermDateParam (src/index.d.ts lines 160-198). -/
def searchTermDateParamKeys : List String :=
  ["BEFORE", "!BEFORE", "ON", "!ON", "SINCE", "!SINCE",
   "SENTBEFORE", "!SENTBEFORE", "SENTON", "!SENTON",
   "SENTSINCE", "!SENTSINCE"]

/-- The keyword literals admitted in the first slot of
SearchTermIntParam (src/index.d.ts lines 200-213). -/
def searchTermIntParamKeys : List String :=
  ["LARGER", "!LARGER", "SMALLER", "!SMALLER"]

/-- The keyword literals admitted in the first slot of
GmailSearchTerm (the Gmail extension declaration file, lines 5-27). -/
def gmailSearchTermKeys : List String :=
  ["X-GM-RAW", "X-GM-THRID", "X-GM-MSGID", "X-GM-LABELS"]

/-- Membership in the TypeScript union type SearchTermNoParam: one of
the listed string literals. -/
def isSearchTermNoParam : TSVal → Bool
| .str k => searchTermNoParamKeys.contains k
| _ => false

/-- Membership in SearchTermStringParam: a two-element tuple of a
keyword literal and a string. -/
def isSearchTermStringParam : TSVal → Bool
| .arr [.str k, .str _] => searchTermStringParamKeys.contains k
| _ => false

/-- Membership in SearchTermStringParam2 (src/index.d.ts lines
149-158): a four-element tuple whose first slot is the literal type
HEADER, whose second slot is the literal type !HEADER, followed by
two strings. -/
def isSearchTermStringParam2 : TSVal → Bool
| .arr [.str k1, .str k2, .str _, .str _] => k1 == "HEADER" && k2 == "!HEADER"
| _ => false

/-- A value of TypeScript type string | Date, the second slot of
SearchTermDateParam. -/
def isStringOrDate : TSVal → Bool
| .str _ => true
| .dateV _ => true
| _ => false

/-- Membership in SearchTermDateParam: a keyword literal paired with a
string-or-Date value. -/
def isSearchTermDateParam : TSVal → Bool
| .arr [.str k, v] => searchTermDateParamKeys.contains k && isStringOrDate v
| _ => false

/-- Membership in SearchTermIntParam: a keyword literal paired with a
number. -/
def isSearchTermIntParam : TSVal → Bool
| .arr [.str k, .num _] => searchTermIntParamKeys.contains k
| _ => false

/-- A value of TypeScript type number | string. -/
def isNumOrStr : TSVal → Bool
| .str _ => true
| .num _ => true
| _ => false

/-- Membership in SearchTermUID (src/index.d.ts line 215):
any array whose elements are numbers or strings. -/
def isSearchTermUID : TSVal → Bool
| .arr xs => xs.all isNumOrStr
| _ => false

/-- Membership in the union _SearchTerm (src/index.d.ts lines
217-224). -/
def is_SearchTerm (v : TSVal) : Bool :=
  isSearchTermNoParam v || isSearchTermStringParam v ||
  isSearchTermStringParam2 v || isSearchTermDateParam v ||
  isSearchTermIntParam v || isSearchTermUID v

/-- The OR tuple shape shared by SearchTerm and GSearchTerm: a
three-element tuple of the literal OR and two operands drawn from the
given inner type. -/
def isOrShape (inner : TSVal → Bool) (v : TSVal) : Bool :=
  match v with
  | .arr [.str o, a, b] => o == "OR" && inner a && inner b
  | _ => false

/-- Membership in SearchTerm (src/index.d.ts line 226):
_SearchTerm or an OR tuple over two _SearchTerm operands. -/
def isSearchTerm (v : TSVal) : Bool :=
  is_SearchTerm v || isOrShape is_SearchTerm v

/-- Membership in GmailSearchTerm: a Gmail keyword paired with a
string. -/
def isGmailSearchTerm : TSVal → Bool
| .arr [.str k, .str _] => gmailSearchTermKeys.contains k
| _ => false

/-- Membership in _GSearchTerm (Gmail extension declaration, line 29):
a base _SearchTerm or a GmailSearchTerm. -/
def is_GSearchTerm (v : TSVal) : Bool :=
  is_SearchTerm v || isGmailSearchTerm v

/-- Membership in GSearchTerm (Gmail extension declaration, line 31):
_GSearchTerm or an OR tuple over two _GSearchTerm operands. -/
def isGSearchTerm (v : TSVal) : Bool :=
  is_GSearchTerm v || isOrShape is_GSearchTerm v

/-- Whether a keyword is a !-prefixed (negated) keyword. -/
def isNegKey (k : String) : Bool :=
  match k.data with
  | '!' :: _ => true
  | _ => false

/-- Whether every positive (non-negated) keyword of the list also has
its !-prefixed negation as an alternative in the same list. -/
def negationClosed (keys : List String) : Bool :=
  (keys.filter (fun k => ! isNegKey k)).all
    (fun k => keys.contains ("!" ++ k))

/-- The string literals of the declared type of the state field of
IConnection (src/index.d.ts line 706). -/
def stateFieldValues : List String :=
  ["disconnected", "connected", "authenticated"]

/-- Field names and declared types of IImapMessageAttributes in module
imap/types (src/index.d.ts lines 257-282). -/
def imapMessageAttributesFields : List (String × String) :=
  [("uid", "number"), ("flags", "ImapMessageFlags[]"), ("date", "Date"),
   ("struct", "any[]"), ("size", "number")]

/-- Field names and declared types of the IImapMessageAttributes
interface declared by the Gmail extension file (lines 33-37). -/
def gmailMessageAttributesFields : List (String × String) :=
  [("x-gm-thrid", "string"), ("x-gm-msgid", "string"),
   ("x-gm-labels", "string[]")]

/-- The extends clause of the Gmail IImapMessageAttributes interface:
the declaration has none. -/
def gmailMessageAttributesExtendsList : List String := []

/-- Modelled from the spec: the four connection states of the state
machine of section 4.3 (the state tracker itself is not under src/,
which holds only type declarations). -/
inductive ConnState where
| disconnected
| connected
| authenticated
| selected
deriving DecidableEq

/-- Modelled from the spec: the lifecycle events that drive the
connection state machine of section 4.3. -/
inductive ConnEvent where
| connectOk
| authOk
| openBoxOk
| closeBox
| transportClose
| destroy
deriving DecidableEq

/-- Modelled from the spec: the transition function of section 4.3.
Forward transitions disconnected to connected to authenticated,
authenticated to selected on successful openBox, selected back to
authenticated on closeBox, and any state to disconnected on transport
close or destroy. -/
def connStep (s : ConnState) (e : ConnEvent) : ConnState :=
  match e, s with
  | .transportClose, _ => .disconnected
  | .destroy, _ => .disconnected
  | .connectOk, .disconnected => .connected
  | .authOk, .connected => .authenticated
  | .openBoxOk, .authenticated => .selected
  | .closeBox, .selected => .authenticated
  | _, s => s

/-- Modelled from the spec: the event categories routed by the
dispatcher of section 4.5, matching the event names declared on
IConnection (src/index.d.ts lines 868-914). The constructor names
carry an E suffix where the source name collides with a keyword. -/
inductive Ev where
| readyE
| errorE
| endE
| closeE
| alertE
| mailE
| expungeE
| uidvalidityE
| updateE
deriving DecidableEq

/-- Number of occurrences of an event in an emission trace. -/
def countEv (e : Ev) : List Ev → Nat
| [] => 0
| x :: xs => (if x = e then 1 else 0) + countEv e xs

/-- Modelled from the spec: the dispatcher-visible lifetime state,
recording which of the at-most-once events have already fired and
whether the connection has completely closed. -/
structure DispState where
  closedD : Bool
  endD : Bool
  errorD : Bool
  readyD : Bool
deriving DecidableEq

/-- The dispatcher state of a fresh connection. -/
def initDisp : DispState := ⟨false, false, false, false⟩

/-- Modelled from the spec: whether an event may still fire. Nothing
fires after close (the connection has completely closed); ready,
error and end fire at most once; the remaining categories are
unrestricted. -/
def canEmit (st : DispState) : Ev → Bool
| .closeE => ! st.closedD
| .endE => ! st.closedD && ! st.endD
| .errorE => ! st.closedD && ! st.errorD
| .readyE => ! st.closedD && ! st.readyD
| _ => ! st.closedD

/-- Modelled from the spec: the dispatcher state after an event
fires. -/
def emitStep (st : DispState) : Ev → DispState
| .closeE => { st with closedD := true }
| .endE => { st with endD := true }
| .errorE => { st with errorD := true }
| .readyE => { st with readyD := true }
| _ => st

/-- A trace of emitted events is valid from a dispatcher state when
each event was permitted at its point of emission. -/
def validFrom (st : DispState) : List Ev → Bool
| [] => true
| e :: tr => canEmit st e && validFrom (emitStep st e) tr

/-- A valid emission trace for one connection lifetime. -/
def validTrace (tr : List Ev) : Bool := validFrom initDisp tr

/-- Modelled from the spec: the command pipeline state of section 4.2,
a monotone tag counter and the FIFO of pending commands, each a tag
paired with its command text. -/
structure Pipeline where
  nextTag : Nat
  pending : List (Nat × String)
deriving DecidableEq

/-- The pipeline of a fresh connection. -/
def initPipeline : Pipeline := ⟨0, []⟩

/-- Modelled from the spec: send assigns the next tag to the command,
appends it to the pending FIFO, and returns the assigned tag. -/
def send (p : Pipeline) (cmd : String) : Pipeline × Nat :=
  (⟨p.nextTag + 1, p.pending ++ [(p.nextTag, cmd)]⟩, p.nextTag)

/-- Modelled from the spec: a tagged completion resolves the pending
command carrying that tag and removes it; a completion for an unknown
tag is a protocol error, returned as none. -/
def resolveTag (p : Pipeline) (t : Nat) : Option (Pipeline × String) :=
  match p.pending.find? (fun e => e.1 == t) with
  | some e => some (⟨p.nextTag, p.pending.filter (fun x => x.1 != t)⟩, e.2)
  | none => none

/-- An interleaving of pipeline operations: user sends and tagged
completions arriving from the server. -/
inductive PipeOp where
| sendOp : String → PipeOp
| resolveOp : Nat → PipeOp

/-- One pipeline operation applied to the state: a send enqueues under
the fresh tag; a tagged completion removes the pending command
carrying that tag (a completion for an unknown tag is fatal at the
connection level but alters no pending command, so the filter removes
nothing). -/
def applyOp (p : Pipeline) : PipeOp → Pipeline
| .sendOp c => (send p c).1
| .resolveOp t => ⟨p.nextTag, p.pending.filter (fun x => x.1 != t)⟩

/-- The pipeline reached from a fresh connection by a sequence of
interleaved operations. -/
def runOps (ops : List PipeOp) : Pipeline :=
  ops.foldl applyOp initPipeline

/-- The pipeline invariant: every pending tag is below the counter,
and pending tags are pairwise distinct. -/
def PipeInv (p : Pipeline) : Prop :=
  (∀ e ∈ p.pending, e.1 < p.nextTag) ∧ (p.pending.map Prod.fst).Nodup

/-- Modelled from the spec: the sequence-number renumbering of
section 4.3 applied to the cached sequence-to-UID table on an
untagged EXPUNGE with the given sequence number: every cached
sequence number strictly greater is decremented by one, the UID
component of every entry is untouched. -/
def applyExpunge (s : Nat) (cache : List (Nat × Nat)) : List (Nat × Nat) :=
  cache.map (fun e => (if s < e.1 then e.1 - 1 else e.1, e.2))

/-- Modelled from the spec: setFlags replaces the flag set of every
message matched by the source with the given flag set
(src/index.d.ts lines 648-651 declare the operation; its semantics,
sets the flags for the messages, is taken from the declaration
comment). The message source is modelled as the predicate of UIDs it
matches. -/
def setFlags (src : Nat → Bool) (flags : List String)
    (store : Nat → List String) : Nat → List String :=
  fun u => if src u then flags else store u

/-- Modelled from the spec: IMAP quoted-string rendering of a string
argument of the criteria compiler of section 4.4 (the
literal-encoding escape hatch for oversized or control-character
strings is not needed by any claim and is not modelled). -/
def quoteArg (s : String) : String := "\"" ++ s ++ "\""

/-- Modelled from the spec: a !-prefixed keyword is rendered as NOT
followed by the positive keyword; a positive keyword is rendered as
itself (section 4.4: negation rendered as NOT or a !-prefixed keyword
per server dialect). -/
def renderKey (k : String) : String :=
  match k.data with
  | '!' :: rest => "NOT " ++ String.mk rest
  | _ => k

/-- Modelled from the spec: the criteria compiler of section 4.4 on a
single criterion, for the fragments the claims exercise: no-argument
flag tests render as their keyword, string-match criteria render the
keyword followed by the quoted string, integer criteria render the
keyword followed by the number, Gmail extension criteria pass their
string argument through quoted. Date rendering and UID lists are not
exercised by any claim and compile to none here. -/
def compileTerm : TSVal → Option String
| .str k =>
  if searchTermNoParamKeys.contains k then some (renderKey k) else none
| .arr [.str k, .str s] =>
  if searchTermStringParamKeys.contains k then
    some (renderKey k ++ " " ++ quoteArg s)
  else if gmailSearchTermKeys.contains k then
    some (k ++ " " ++ quoteArg s)
  else none
| .arr [.str k, .num n] =>
  if searchTermIntParamKeys.contains k then
    some (renderKey k ++ " " ++ toString n)
  else none
| _ => none

/-- Space-joining of the compiled criteria, the wire-format AND of
section 4.4. -/
def joinSp : List String → String
| [] => ""
| [w] => w
| w :: ws => w ++ " " ++ joinSp ws

/-- Modelled from the spec: the criteria compiler of section 4.4 on an
ordered criteria sequence: each criterion compiled and the results
space-joined (the wire format ANDs them); an empty sequence is
rejected (none). -/
def compileCriteria (ts : List TSVal) : Option String :=
  match ts with
  | [] => none
  | _ => (ts.mapM compileTerm).map joinSp

/-- The decimal digit characters, in value order. -/
def digitChars : List Char :=
  ['0', '1', '2', '3', '4', '5', '6', '7', '8', '9']

/-- The numeric value of a decimal digit character: its position among
the digit characters. -/
def parseDigit (c : Char) : Option Nat :=
  digitChars.findIdx? (fun d => d == c)

/-- Decimal accumulation over a character list. -/
def parseNatAux : Nat → List Char → Option Nat
| acc, [] => some acc
| acc, c :: cs =>
  match parseDigit c with
  | some d => parseNatAux (acc * 10 + d) cs
  | none => none

/-- A token parsed as a nonempty decimal numeral. -/
def parseNatToken (w : String) : Option Nat :=
  match w.data with
  | [] => none
  | c :: cs => parseNatAux 0 (c :: cs)

/-- Splitting a character list into space-separated words. -/
def splitWords : List Char → List (List Char)
| [] => [[]]
| c :: cs =>
  if c = ' ' then [] :: splitWords cs
  else
    match splitWords cs with
    | [] => [[c]]
    | w :: ws => (c :: w) :: ws

/-- Modelled from the spec: parsing an untagged SEARCH response line
into the list of UIDs it carries (section 2, parser component; the
observable surface of the search operation, src/index.d.ts lines
613-619, delivers number arrays). -/
def parseSearchResponse (line : String) : Option (List Nat) :=
  match (splitWords line.data).map String.mk with
  | "*" :: "SEARCH" :: rest => rest.mapM parseNatToken
  | _ => none

/-- The reference UID set of the search scenario of the spec
(section 8): UIDs 101 and 102. -/
def searchReferenceUids : List Nat := [101, 102]

/-- Claim C1, counterexample: the claim says the state field ranges
over all four states of the state machine, but the declared type of
the state field of IConnection (src/index.d.ts line 706) lists only
three string literals, and selected is not among them. -/
theorem c1_counterexample :
    stateFieldValues.contains ("selected") = false ∧
    stateFieldValues.length = 3 := by
  constructor <;> rfl

/-- Claim C1 (amended): the spec state machine has the four states
disconnected, connected, authenticated, selected, with authenticated
transitioning to selected on successful openBox, selected back to
authenticated on closeBox, and every state to disconnected on
transport close or destroy; but the declared type of the state field
of IConnection covers only the three literals disconnected, connected
and authenticated, so selected is absent from the field type. -/
theorem c1_state_machine :
    connStep ConnState.authenticated ConnEvent.openBoxOk = ConnState.selected ∧
    connStep ConnState.selected ConnEvent.closeBox = ConnState.authenticated ∧
    (∀ s : ConnState, connStep s ConnEvent.transportClose = ConnState.disconnected) ∧
    (∀ s : ConnState, connStep s ConnEvent.destroy = ConnState.disconnected) ∧
    stateFieldValues = ["disconnected", "connected", "authenticated"] ∧
    stateFieldValues.contains ("selected") = false := by
  refine ⟨rfl, rfl, ?_, ?_, rfl, rfl⟩ <;> intro s <;> cases s <;> rfl

/-- Claim C5: compiling the criteria sequence of a FROM match on
a@b.com followed by UNSEEN yields exactly the wire string
FROM "a@b.com" UNSEEN, and parsing the echoed untagged SEARCH
response yields the same UID set as the reference case, UIDs 101 and
102. -/
theorem c5_search_round_trip :
    compileCriteria
      [TSVal.arr [TSVal.str ("FROM"), TSVal.str ("a@b.com")],
       TSVal.str ("UNSEEN")] = some ("FROM \"a@b.com\" UNSEEN") ∧
    parseSearchResponse ("* SEARCH 101 102") = some searchReferenceUids ∧
    searchReferenceUids = [101, 102] := by
  refine ⟨by decide, by decide, rfl⟩

/-- Claim C7: setFlags is idempotent: for every message source, flag
set and starting store, applying setFlags twice with the same
arguments yields the same final flag assignment as applying it
once. -/
theorem c7_setflags_idempotent :
    ∀ (src : Nat → Bool) (flags : List String) (store : Nat → List String),
      setFlags src flags (setFlags src flags store) =
        setFlags src flags store := by
  intro src flags store
  funext u
  by_cases h : src u = true <;> simp [setFlags, h]

/-- Claim C10: the Gmail extension declares its own
IImapMessageAttributes interface with exactly the three fields
x-gm-thrid (string), x-gm-msgid (string) and x-gm-labels (string
array), without an extends clause, and its field names are disjoint
from those of the base IImapMessageAttributes, so it carries none of
uid, flags, date, struct or size. -/
theorem c10_gmail_attributes :
    gmailMessageAttributesFields =
      [("x-gm-thrid", "string"), ("x-gm-msgid", "string"),
       ("x-gm-labels", "string[]")] ∧
    gmailMessageAttributesExtendsList = [] ∧
    (gmailMessageAttributesFields.map Prod.fst).all
      (fun n => ! (imapMessageAttributesFields.map Prod.fst).contains n)
      = true ∧
    (gmailMessageAttributesFields.map Prod.fst).contains ("uid") = false ∧
    (gmailMessageAttributesFields.map Prod.fst).contains ("flags") = false ∧
    (gmailMessageAttributesFields.map Prod.fst).contains ("date") = false ∧
    (gmailMessageAttributesFields.map Prod.fst).contains ("struct") = false ∧
    (gmailMessageAttributesFields.map Prod.fst).contains ("size") = false := by
  decide

/-- Claim C3: on an EXPUNGE event carrying sequence number s, every
cached entry whose sequence number is strictly greater than s has it
decremented by exactly one, every entry whose sequence number is not
greater than s keeps it unchanged, and the UID component of every
entry is unaltered; the table keeps its length. -/
theorem c3_expunge_effect :
    (∀ (s : Nat) (cache : List (Nat × Nat)),
      (applyExpunge s cache).length = cache.length) ∧
    (∀ (s : Nat) (cache : List (Nat × Nat)) (i q u : Nat),
      cache[i]? = some (q, u) →
        (s < q → (applyExpunge s cache)[i]? = some (q - 1, u)) ∧
        (q ≤ s → (applyExpunge s cache)[i]? = some (q, u)) ∧
        ((applyExpunge s cache)[i]?.map Prod.snd = some u)) := by
  constructor
  · intro s cache
    simp [applyExpunge]
  · intro s cache i q u h
    have hm : (applyExpunge s cache)[i]? =
        (cache[i]?).map (fun e => (if s < e.1 then e.1 - 1 else e.1, e.2)) := by
      simp [applyExpunge]
    rw [h] at hm
    refine ⟨fun hlt => ?_, fun hle => ?_, ?_⟩
    · rw [hm]
      simp [hlt]
    · rw [hm]
      simp [Nat.not_lt_of_le hle]
    · rw [hm]
      by_cases hc : s < q <;> simp [hc]

/-- Claim C3 witness: expunging sequence number 3 against the cached
table mapping sequence 2 to UID 40 and sequence 5 to UID 100 leaves
entry 2 untouched and renumbers 5 to 4 with its UID intact. -/
theorem c3_expunge_effect_witness :
    (applyExpunge 3 [(2, 40), (5, 100)])[1]? = some (4, 100) ∧
    (applyExpunge 3 [(2, 40), (5, 100)])[0]? = some (2, 40) :=
  ⟨(c3_expunge_effect.2 3 [(2, 40), (5, 100)] 1 5 100 (by decide)).1 (by decide),
   (c3_expunge_effect.2 3 [(2, 40), (5, 100)] 0 2 40 (by decide)).2.1 (by decide)⟩

/-- Claim C8, counterexample: the claim says neither the three-element
term HEADER name value nor its !HEADER counterpart inhabits
SearchTerm; but both are arrays of strings, so both structurally
inhabit SearchTerm through the SearchTermUID alternative, which is
Array of number or string. -/
theorem c8_counterexample :
    isSearchTerm
      (TSVal.arr [TSVal.str ("HEADER"), TSVal.str ("X-Mailer"),
        TSVal.str ("mutt")]) = true ∧
    isSearchTerm
      (TSVal.arr [TSVal.str ("!HEADER"), TSVal.str ("X-Mailer"),
        TSVal.str ("mutt")]) = true := by
  decide

/-- Claim C8 (amended): SearchTermStringParam2 is a four-element tuple
whose first slot admits only the literal HEADER and whose second slot
admits only the literal !HEADER, as separate fixed slots rather than a
union in one slot, so neither the three-element term HEADER name value
nor the negated !HEADER name value matches the header-criterion shape
SearchTermStringParam2 (both still inhabit SearchTerm, but only
incidentally through the UID-list alternative); unlike every other
parameterized criterion, whose keyword lists contain the !-negation of
each positive keyword as a union alternative in the same slot. -/
theorem c8_header_term_shape :
    (∀ a b c d : String,
      isSearchTermStringParam2
        (TSVal.arr [TSVal.str a, TSVal.str b, TSVal.str c, TSVal.str d]) =
        (a == "HEADER" && b == "!HEADER")) ∧
    (∀ n v : String,
      isSearchTermStringParam2
        (TSVal.arr [TSVal.str ("HEADER"), TSVal.str n, TSVal.str v]) = false ∧
      isSearchTermStringParam2
        (TSVal.arr [TSVal.str ("!HEADER"), TSVal.str n, TSVal.str v]) = false ∧
      isSearchTerm
        (TSVal.arr [TSVal.str ("HEADER"), TSVal.str n, TSVal.str v]) = true) ∧
    (negationClosed searchTermStringParamKeys = true ∧
     negationClosed searchTermDateParamKeys = true ∧
     negationClosed searchTermIntParamKeys = true ∧
     negationClosed searchTermNoParamKeys = true) := by
  refine ⟨fun a b c d => rfl, fun n v => ⟨rfl, rfl, rfl⟩, by decide⟩

/-- A nested OR search term: an OR tuple whose first operand is itself
an OR tuple over two bare strings and whose second operand is the
keyword SEEN. -/
def nestedOrTerm (s t : String) : TSVal :=
  TSVal.arr [TSVal.str ("OR"),
    TSVal.arr [TSVal.str ("OR"), TSVal.str s, TSVal.str t],
    TSVal.str ("SEEN")]

/-- Claim C9, counterexample: the claim says nested OR is not
expressible, but the OR tuple over the keywords SEEN and FLAGGED is
itself an array of strings, hence a SearchTermUID, hence a
_SearchTerm, so the nested term OR (OR SEEN FLAGGED) SEEN inhabits
SearchTerm (and GSearchTerm) while its first operand is itself a
well-formed OR term. -/
theorem c9_counterexample :
    isSearchTerm (nestedOrTerm ("SEEN") ("FLAGGED")) = true ∧
    isGSearchTerm (nestedOrTerm ("SEEN") ("FLAGGED")) = true ∧
    isOrShape is_SearchTerm
      (TSVal.arr [TSVal.str ("OR"), TSVal.str ("SEEN"),
        TSVal.str ("FLAGGED")]) = true := by
  decide

/-- Claim C9 (amended): in both grammars the OR alternative is
syntactically non-recursive: an OR tuple is accepted exactly when its
two operands inhabit the OR-free union _SearchTerm (respectively
_GSearchTerm), and SearchTerm adds nothing beyond _SearchTerm and
that OR shape; nevertheless, because SearchTermUID is Array of number
or string, an OR tuple whose operands are bare strings itself
inhabits _SearchTerm as a UID list, so nested OR terms such as
OR (OR s t) SEEN are expressible for every pair of strings s, t. -/
theorem c9_or_grammar :
    (∀ a b : TSVal,
      isOrShape is_SearchTerm (TSVal.arr [TSVal.str ("OR"), a, b]) =
        (is_SearchTerm a && is_SearchTerm b)) ∧
    (∀ a b : TSVal,
      isOrShape is_GSearchTerm (TSVal.arr [TSVal.str ("OR"), a, b]) =
        (is_GSearchTerm a && is_GSearchTerm b)) ∧
    (∀ v : TSVal, isSearchTerm v = (is_SearchTerm v || isOrShape is_SearchTerm v)) ∧
    (∀ s t : String, isSearchTerm (nestedOrTerm s t) = true) ∧
    (∀ s t : String, isGSearchTerm (nestedOrTerm s t) = true) := by
  refine ⟨fun a b => rfl, fun a b => rfl, fun v => rfl, fun s t => rfl, fun s t => rfl⟩

/-- Claim C2: a value inhabits the search-criterion type (the Gmail
grammar GSearchTerm, which extends the base grammar with the
extension key/value criterion) exactly when it has one of these
shapes: a no-argument flag test (each available in positive and
!-negated form), a string match with one string argument, the HEADER
match with two string arguments, a date-range term taking a
string-or-Date argument, an integer-comparison term taking a number,
a UID list, an extension key/value term, or a binary OR tuple over
two terms; every positive keyword has its !-negation as an
alternative in the same slot; a search call takes an ordered
sequence of such criteria, and the wire format ANDs them by
space-joining the compiled criteria. -/
theorem c2_search_term_shapes :
    (∀ v : TSVal,
      isGSearchTerm v = true ↔
        (isSearchTermNoParam v = true ∨ isSearchTermStringParam v = true ∨
         isSearchTermStringParam2 v = true ∨ isSearchTermDateParam v = true ∨
         isSearchTermIntParam v = true ∨ isSearchTermUID v = true ∨
         isGmailSearchTerm v = true ∨ isOrShape is_GSearchTerm v = true)) ∧
    (negationClosed searchTermNoParamKeys = true ∧
     negationClosed searchTermStringParamKeys = true ∧
     negationClosed searchTermDateParamKeys = true ∧
     negationClosed searchTermIntParamKeys = true) ∧
    (∀ (t1 t2 : TSVal) (w1 w2 : String),
      compileTerm t1 = some w1 → compileTerm t2 = some w2 →
        compileCriteria [t1, t2] = some (w1 ++ " " ++ w2)) ∧
    compileCriteria [] = none := by
  refine ⟨?_, by decide, ?_, rfl⟩
  · intro v
    simp only [isGSearchTerm, is_GSearchTerm, is_SearchTerm, Bool.or_eq_true]
    tauto
  · intro t1 t2 w1 w2 h1 h2
    simp [compileCriteria, List.mapM, List.mapM.loop, h1, h2, joinSp]

/-- Claim C2 witness: compiling the two-criterion sequence of the
flag tests ALL and UNSEEN space-joins the two compiled keywords. -/
theorem c2_search_term_shapes_witness :
    compileCriteria [TSVal.str ("ALL"), TSVal.str ("UNSEEN")] =
      some ("ALL" ++ " " ++ "UNSEEN") :=
  c2_search_term_shapes.2.2.1 (TSVal.str ("ALL")) (TSVal.str ("UNSEEN"))
    ("ALL") ("UNSEEN") (by decide) (by decide)

/-- Once the connection has completely closed, no further event is
emitted: every valid trace from a closed dispatcher state is
empty. -/
theorem valid_closed (st : DispState) (h : st.closedD = true) :
    ∀ tr : List Ev, validFrom st tr = true → tr = [] := by
  intro tr
  cases tr with
  | nil => intro _; rfl
  | cons e tr =>
    intro hv
    exfalso
    cases e <;> simp [validFrom, canEmit, h] at hv

/-- Along a valid emission, the close event fires at most once. -/
theorem countClose_le :
    ∀ (tr : List Ev) (st : DispState), validFrom st tr = true →
      countEv Ev.closeE tr ≤ 1 := by
  intro tr
  induction tr with
  | nil => intro st _; simp [countEv]
  | cons e tr ih =>
    intro st h
    simp only [validFrom, Bool.and_eq_true] at h
    obtain ⟨hc, hv⟩ := h
    cases e
    case closeE =>
      have htr := valid_closed (emitStep st Ev.closeE) (by simp [emitStep]) tr hv
      subst htr
      simp [countEv]
    all_goals simpa [countEv] using ih _ hv

/-- Once the end event has fired, it never fires again along a valid
emission. -/
theorem countEnd_zero :
    ∀ (tr : List Ev) (st : DispState), validFrom st tr = true →
      st.endD = true → countEv Ev.endE tr = 0 := by
  intro tr
  induction tr with
  | nil => intro st _ _; rfl
  | cons e tr ih =>
    intro st h hd
    simp only [validFrom, Bool.and_eq_true] at h
    obtain ⟨hc, hv⟩ := h
    cases e
    case endE => simp [canEmit, hd] at hc
    all_goals simpa [countEv] using ih _ hv (by simpa [emitStep] using hd)

/-- Along a valid emission, the end event fires at most once. -/
theorem countEnd_le :
    ∀ (tr : List Ev) (st : DispState), validFrom st tr = true →
      countEv Ev.endE tr ≤ 1 := by
  intro tr
  induction tr with
  | nil => intro st _; simp [countEv]
  | cons e tr ih =>
    intro st h
    simp only [validFrom, Bool.and_eq_true] at h
    obtain ⟨hc, hv⟩ := h
    cases e
    case endE =>
      have hz := countEnd_zero tr (emitStep st Ev.endE) hv (by simp [emitStep])
      simp [countEv, hz]
    all_goals simpa [countEv] using ih _ hv

/-- Once the error event has fired, it never fires again along a
valid emission. -/
theorem countError_zero :
    ∀ (tr : List Ev) (st : DispState), validFrom st tr = true →
      st.errorD = true → countEv Ev.errorE tr = 0 := by
  intro tr
  induction tr with
  | nil => intro st _ _; rfl
  | cons e tr ih =>
    intro st h hd
    simp only [validFrom, Bool.and_eq_true] at h
    obtain ⟨hc, hv⟩ := h
    cases e
    case errorE => simp [canEmit, hd] at hc
    all_goals simpa [countEv] using ih _ hv (by simpa [emitStep] using hd)

/-- Along a valid emission, the error event fires at most once. -/
theorem countError_le :
    ∀ (tr : List Ev) (st : DispState), validFrom st tr = true →
      countEv Ev.errorE tr ≤ 1 := by
  intro tr
  induction tr with
  | nil => intro st _; simp [countEv]
  | cons e tr ih =>
    intro st h
    simp only [validFrom, Bool.and_eq_true] at h
    obtain ⟨hc, hv⟩ := h
    cases e
    case errorE =>
      have hz := countError_zero tr (emitStep st Ev.errorE) hv (by simp [emitStep])
      simp [countEv, hz]
    all_goals simpa [countEv] using ih _ hv

/-- Events that do not touch the lifetime flags can be replayed
arbitrarily often from the fresh dispatcher state. -/
theorem validFrom_replicate (e : Ev) (hc : canEmit initDisp e = true)
    (he : emitStep initDisp e = initDisp) :
    ∀ n : Nat, validFrom initDisp (List.replicate n e) = true := by
  intro n
  induction n with
  | zero => rfl
  | succ n ih => simp [List.replicate_succ, validFrom, hc, he, ih]

/-- Replicating an event n times yields a trace in which it fires
exactly n times. -/
theorem countEv_replicate (e : Ev) :
    ∀ n : Nat, countEv e (List.replicate n e) = n := by
  intro n
  induction n with
  | zero => rfl
  | succ n ih =>
    simp [List.replicate_succ, countEv, ih]
    omega

/-- Claim C4: over every valid emission trace of one connection
lifetime, observers of the close, end and error events fire at most
once, while each of the other event categories (mail, expunge,
update, alert, uidvalidity) can fire arbitrarily many times: for
every count n there is a valid lifetime trace in which that category
fires exactly n times. -/
theorem c4_event_multiplicity :
    (∀ tr : List Ev, validTrace tr = true →
      countEv Ev.closeE tr ≤ 1 ∧ countEv Ev.endE tr ≤ 1 ∧
      countEv Ev.errorE tr ≤ 1) ∧
    (∀ e : Ev,
      e ∈ [Ev.mailE, Ev.expungeE, Ev.updateE, Ev.alertE, Ev.uidvalidityE] →
      ∀ n : Nat, ∃ tr : List Ev,
        validTrace tr = true ∧ countEv e tr = n) := by
  constructor
  · intro tr h
    exact ⟨countClose_le tr initDisp h, countEnd_le tr initDisp h,
      countError_le tr initDisp h⟩
  · intro e he n
    have hcase : e = Ev.mailE ∨ e = Ev.expungeE ∨ e = Ev.updateE ∨
        e = Ev.alertE ∨ e = Ev.uidvalidityE := by simpa using he
    have hval : validFrom initDisp (List.replicate n e) = true := by
      rcases hcase with rfl | rfl | rfl | rfl | rfl <;>
        exact validFrom_replicate _ (by decide) (by decide) n
    exact ⟨List.replicate n e, hval, countEv_replicate e n⟩

/-- Claim C4 witness: the lifetime trace of one mail event followed by
the close event is valid, and close, end and error each fire at most
once along it. -/
theorem c4_event_multiplicity_witness :
    countEv Ev.closeE [Ev.mailE, Ev.closeE] ≤ 1 ∧
    countEv Ev.endE [Ev.mailE, Ev.closeE] ≤ 1 ∧
    countEv Ev.errorE [Ev.mailE, Ev.closeE] ≤ 1 :=
  c4_event_multiplicity.1 [Ev.mailE, Ev.closeE] (by decide)

/-- In a pending list with pairwise distinct tags, lookup by tag finds
exactly the entry holding that tag. -/
theorem find_unique_key :
    ∀ (l : List (Nat × String)) (t : Nat) (c : String),
      (l.map Prod.fst).Nodup → (t, c) ∈ l →
      l.find? (fun e => e.1 == t) = some (t, c) := by
  intro l
  induction l with
  | nil => intro t c _ hm; simp at hm
  | cons x xs ih =>
    intro t c hnd hm
    simp only [List.map_cons, List.nodup_cons] at hnd
    obtain ⟨hx1, hnd2⟩ := hnd
    rcases List.mem_cons.mp hm with heq | hmem
    · obtain rfl := heq.symm
      exact List.find?_cons_of_pos _ (by simp)
    · have ht : t ∈ xs.map Prod.fst := List.mem_map_of_mem Prod.fst hmem
      by_cases hx : x.1 = t
      · exact absurd (hx ▸ ht) hx1
      · rw [List.find?_cons_of_neg _ (by simpa using hx)]
        exact ih t c hnd2 hmem

/-- The fresh pipeline satisfies the pipeline invariant. -/
theorem pipeInv_init : PipeInv initPipeline := by
  constructor
  · intro e he; simp [initPipeline] at he
  · simp [initPipeline]

/-- Every pipeline operation preserves the pipeline invariant. -/
theorem pipeInv_applyOp (p : Pipeline) (op : PipeOp) (h : PipeInv p) :
    PipeInv (applyOp p op) := by
  obtain ⟨hlt, hnd⟩ := h
  cases op with
  | sendOp c =>
    constructor
    · intro e he
      simp only [applyOp, send] at he ⊢
      rcases List.mem_append.mp he with hin | hin
      · exact Nat.lt_succ_of_lt (hlt e hin)
      · simp at hin
        simp [hin]
    · simp only [applyOp, send, List.map_append]
      refine List.Nodup.append hnd (by simp) ?_
      intro a ha hb
      simp at hb
      rcases List.mem_map.mp ha with ⟨e, he, rfl⟩
      exact absurd (hb ▸ hlt e he) (Nat.lt_irrefl _)
  | resolveOp t =>
    constructor
    · intro e he
      exact hlt e (List.mem_of_mem_filter he)
    · exact List.Nodup.sublist
        (List.Sublist.map Prod.fst (List.filter_sublist p.pending)) hnd

/-- Every pipeline reachable by a sequence of interleaved operations
satisfies the pipeline invariant. -/
theorem pipeInv_runOps : ∀ ops : List PipeOp, PipeInv (runOps ops) := by
  have hgen : ∀ (ops : List PipeOp) (p : Pipeline), PipeInv p →
      PipeInv (ops.foldl applyOp p) := by
    intro ops
    induction ops with
    | nil => intro p hp; exact hp
    | cons o os ih => intro p hp; exact ih _ (pipeInv_applyOp p o hp)
  intro ops
  exact hgen ops initPipeline pipeInv_init

/-- Under the invariant, a tagged completion resolves exactly the
pending command carrying its tag. -/
theorem resolve_exact (p : Pipeline) (t : Nat) (c : String)
    (hnd : (p.pending.map Prod.fst).Nodup) (hm : (t, c) ∈ p.pending) :
    resolveTag p t =
      some (⟨p.nextTag, p.pending.filter (fun x => x.1 != t)⟩, c) := by
  unfold resolveTag
  rw [find_unique_key p.pending t c hnd hm]

/-- Claim C6: for every sequence of interleaved send calls and tagged
completions, the reachable pipeline has pairwise distinct pending
tags; a tagged completion resolves exactly the pending command whose
tag it carries, leaving every other pending command in place and
removing only entries with that tag; and the tag a send assigns
differs from every outstanding tag, so a tag is never reused while a
command with that tag is outstanding. -/
theorem c6_tag_matching :
    ∀ ops : List PipeOp,
      ((runOps ops).pending.map Prod.fst).Nodup ∧
      (∀ (t : Nat) (c : String), (t, c) ∈ (runOps ops).pending →
        resolveTag (runOps ops) t =
          some (⟨(runOps ops).nextTag,
            (runOps ops).pending.filter (fun x => x.1 != t)⟩, c) ∧
        (∀ e ∈ (runOps ops).pending, e.1 ≠ t →
          e ∈ (runOps ops).pending.filter (fun x => x.1 != t)) ∧
        (∀ e ∈ (runOps ops).pending.filter (fun x => x.1 != t),
          e ∈ (runOps ops).pending ∧ e.1 ≠ t)) ∧
      (∀ cmd : String, ∀ e ∈ (runOps ops).pending,
        e.1 ≠ (send (runOps ops) cmd).2) := by
  intro ops
  have hinv := pipeInv_runOps ops
  refine ⟨hinv.2, ?_, ?_⟩
  · intro t c hm
    refine ⟨resolve_exact _ t c hinv.2 hm, ?_, ?_⟩
    · intro e he hne
      exact List.mem_filter.mpr ⟨he, by simpa [bne_iff_ne] using hne⟩
    · intro e he
      have h2 := List.mem_filter.mp he
      exact ⟨h2.1, by simpa [bne_iff_ne] using h2.2⟩
  · intro cmd e he
    have := hinv.1 e he
    simp only [send]
    omega

/-- Claim C6 witness: after sending commands A then B, the completion
tagged 0 resolves exactly command A, leaving only the pending entry
for B. -/
theorem c6_tag_matching_witness :
    resolveTag (runOps [PipeOp.sendOp ("A"), PipeOp.sendOp ("B")]) 0 =
      some (⟨2, [(1, "B")]⟩, "A") := by
  have h := ((c6_tag_matching [PipeOp.sendOp ("A"), PipeOp.sendOp ("B")]).2.1 0
    ("A") (by decide)).1
  exact h.trans (by decide)
